import Mathlib

/-!
Shallow embedding of the chadRefuter Reddit-bot core
(`src/database.py`, `src/post_handler.py`, `src/reddit_api.py`, `src/bot.py`)
together with theorems settling the frozen specification claims.

External effects are made explicit parameters:
* every sqlite operation takes a `fail : Bool` flag modelling the
  `except sqlite3.Error` arm of the source function;
* the LLM service is an oracle `String → Option String` (prompt to
  generated text, `none` = exception / no response);
* wall-clock times (`time.time()`, `datetime.now()`) are rational inputs.
-/

namespace ChadRefuter

/-! ## Database rows and state (`src/database.py`) -/

/-- Row of the `posts` table (`database.py`, `initialize_database`). -/
structure PostRow where
  post_id : String
  subreddit : String
  title : String
  post_text : String
  author : String
  timestamp : ℚ
  llm_response : Option String
  response_timestamp : Option ℚ
deriving DecidableEq, Repr

/-- Row of the `comments` table. -/
structure CommentRow where
  post_id : String
  comment_id : String
  comment_text : String
  posted_at : ℚ
deriving DecidableEq, Repr

/-- Row of the `comment_replies` table. -/
structure ReplyRow where
  parent_comment_id : String
  reply_comment_id : String
  reply_text : String
  author : String
  conversation_depth : Nat
  llm_response : Option String
  is_processed : Bool
deriving DecidableEq, Repr

/-- The three tables managed by `DatabaseHandler`. -/
structure DBState where
  posts : List PostRow
  comments : List CommentRow
  comment_replies : List ReplyRow
deriving DecidableEq, Repr

/-- A freshly initialized database (all tables empty). -/
def emptyDB : DBState := ⟨[], [], []⟩

/-- Truthiness of a Python `Optional[str]`: `None` and `""` are falsy. -/
def optStrTruthy : Option String → Bool
  | none => false
  | some s => !s.isEmpty

/-- `DatabaseHandler.save_post`: `INSERT OR REPLACE INTO posts`, unique on
`post_id`; `response_timestamp = datetime.now() if llm_response else None`;
the `except sqlite3.Error` arm returns `False` leaving the table unchanged. -/
def save_post (fail : Bool) (db : DBState) (post_id subreddit title post_text author : String)
    (timestamp : ℚ) (llm_response : Option String) (now : ℚ) : DBState × Bool :=
  if fail then (db, false)
  else
    let row : PostRow :=
      ⟨post_id, subreddit, title, post_text, author, timestamp, llm_response,
        if optStrTruthy llm_response then some now else none⟩
    ({ db with posts := row :: db.posts.filter (fun r => !(r.post_id == post_id)) }, true)

/-- `DatabaseHandler.check_if_post_exists`: `SELECT 1 FROM posts WHERE post_id = ?`;
returns `False` on a database error. -/
def check_if_post_exists (fail : Bool) (db : DBState) (post_id : String) : Bool :=
  if fail then false
  else db.posts.any (fun r => r.post_id == post_id)

/-- `DatabaseHandler.update_post_response`: `UPDATE posts SET llm_response, response_timestamp
WHERE post_id = ?`; returns `False` on a database error. -/
def update_post_response (fail : Bool) (db : DBState) (post_id llm_response : String)
    (now : ℚ) : DBState × Bool :=
  if fail then (db, false)
  else
    ({ db with posts := db.posts.map (fun r =>
        if r.post_id == post_id then
          { r with llm_response := some llm_response, response_timestamp := some now }
        else r) }, true)

/-- `DatabaseHandler.save_comment`: `INSERT INTO comments (post_id, comment_id,
comment_text, posted_at)`; returns `False` on a database error. -/
def save_comment (fail : Bool) (db : DBState) (post_id comment_id comment_text : String)
    (now : ℚ) : DBState × Bool :=
  if fail then (db, false)
  else ({ db with comments := db.comments ++ [⟨post_id, comment_id, comment_text, now⟩] }, true)

/-- `DatabaseHandler.has_commented_on_post`: `SELECT 1 FROM comments WHERE post_id = ?`;
returns `False` on a database error. -/
def has_commented_on_post (fail : Bool) (db : DBState) (post_id : String) : Bool :=
  if fail then false
  else db.comments.any (fun c => c.post_id == post_id)

/-- `DatabaseHandler.save_comment_reply`: `INSERT OR REPLACE INTO comment_replies`,
unique on `reply_comment_id`; `is_processed = bool(llm_response)`. -/
def save_comment_reply (fail : Bool) (db : DBState)
    (parent_comment_id reply_comment_id reply_text author : String)
    (conversation_depth : Nat) (llm_response : Option String) : DBState × Bool :=
  if fail then (db, false)
  else
    let row : ReplyRow :=
      ⟨parent_comment_id, reply_comment_id, reply_text, author, conversation_depth,
        llm_response, optStrTruthy llm_response⟩
    ({ db with comment_replies :=
        row :: db.comment_replies.filter (fun r => !(r.reply_comment_id == reply_comment_id)) },
      true)

/-- `DatabaseHandler.get_conversation_depth`: `SELECT conversation_depth FROM
comment_replies WHERE reply_comment_id = ?`, `result[0] if result else 0`;
returns `0` on a database error. -/
def get_conversation_depth (fail : Bool) (db : DBState) (comment_id : String) : Nat :=
  if fail then 0
  else
    match db.comment_replies.find? (fun r => r.reply_comment_id == comment_id) with
    | some r => r.conversation_depth
    | none => 0

/-- `DatabaseHandler.is_reply_processed`: `SELECT is_processed FROM comment_replies
WHERE reply_comment_id = ?`, `bool(result[0]) if result else False`;
returns `False` on a database error. -/
def is_reply_processed (fail : Bool) (db : DBState) (reply_comment_id : String) : Bool :=
  if fail then false
  else
    match db.comment_replies.find? (fun r => r.reply_comment_id == reply_comment_id) with
    | some r => r.is_processed
    | none => false

/-! ## Post cache and scanner (`src/post_handler.py`) -/

/-- `PostCache`: bounded in-memory set; `add` clears the whole cache once
`max_size` is reached (bulk evict), then inserts. -/
structure PostCache where
  cache : Finset String
  max_size : Nat
deriving DecidableEq

/-- `PostCache.add`. -/
def PostCache.add (pc : PostCache) (post_id : String) : PostCache :=
  if pc.max_size ≤ pc.cache.card then { pc with cache := {post_id} }
  else { pc with cache := insert post_id pc.cache }

/-- `PostCache.contains`. -/
def PostCache.contains (pc : PostCache) (post_id : String) : Bool :=
  decide (post_id ∈ pc.cache)

/-- An item as yielded by `subreddit.new(limit=...)`. -/
structure FetchedPost where
  id : String
  title : String
  selftext : String
  author : String
  created_utc : ℚ
deriving DecidableEq, Repr

/-- The `RedditPost` dataclass built by `fetch_new_posts`. -/
structure RedditPost where
  id : String
  title : String
  body : String
  created_utc : ℚ
  author : String
deriving DecidableEq, Repr

/-- Conversion performed inside the `fetch_new_posts` loop. -/
def FetchedPost.toRedditPost (p : FetchedPost) : RedditPost :=
  ⟨p.id, p.title, p.selftext, p.created_utc, p.author⟩

/-- Scanner state: the in-memory cache plus the durable store
(the fields of `PostHandler` that `fetch_new_posts` touches). -/
structure HandlerState where
  post_cache : PostCache
  db : DBState
deriving DecidableEq

/-- Effect of taking one novel item in the `fetch_new_posts` loop: mark it
seen in the cache and save it durably with no response yet, ignoring the
result of `save_post`.  `saveFail id` injects the `sqlite3.Error` arm of
`save_post` for that item. -/
def scan_step (saveFail : String → Bool) (subreddit : String) (st : HandlerState)
    (p : FetchedPost) : HandlerState :=
  { post_cache := st.post_cache.add p.id,
    db := (save_post (saveFail p.id) st.db p.id subreddit p.title p.selftext
            p.author p.created_utc none p.created_utc).1 }

/-- Loop body of `PostHandler.fetch_new_posts`: an item is taken iff it is in
neither the cache nor the `posts` table; a taken item is appended to the
result after `scan_step` marks and saves it. -/
def fetch_go (saveFail : String → Bool) (subreddit : String) :
    HandlerState → List FetchedPost → List RedditPost × HandlerState
  | st, [] => ([], st)
  | st, p :: ps =>
    if !(st.post_cache.contains p.id) && !(check_if_post_exists false st.db p.id) then
      let rest := fetch_go saveFail subreddit (scan_step saveFail subreddit st p) ps
      (p.toRedditPost :: rest.1, rest.2)
    else fetch_go saveFail subreddit st ps

/-- `PostHandler.fetch_new_posts`: the whole body runs under `try`; any
failure of the feed itself (`feedFail`) hits the outer `except`, which logs
and returns the empty list. -/
def fetch_new_posts (feedFail : Bool) (saveFail : String → Bool) (subreddit : String)
    (st : HandlerState) (posts : List FetchedPost) : List RedditPost × HandlerState :=
  if feedFail then ([], st)
  else fetch_go saveFail subreddit st posts

/-! ## Content filter and response generation (`PostHandler.process_post`) -/

/-- Python `str.split()` word count: number of maximal runs of
non-whitespace characters. -/
def countWordsAux : Bool → List Char → Nat
  | _, [] => 0
  | inWord, c :: cs =>
    if c.isWhitespace then countWordsAux false cs
    else (if inWord then 0 else 1) + countWordsAux true cs

/-- Number of words of a character list, as Python `len(text.split())`. -/
def countWords (l : List Char) : Nat := countWordsAux false l

/-- `post_text = f"{post.title.lower()} {post.body.lower()}"` as characters. -/
def lowerCat (title body : String) : List Char :=
  title.data.map Char.toLower ++ ' ' :: body.data.map Char.toLower

/-- The `religious_keywords` set from `process_post`. -/
def religious_keywords : List String :=
  ["god", "gods", "religion", "worship", "prayer", "temple",
   "church", "mosque", "scripture", "divine", "prophet", "bible",
   "quran", "torah", "holy"]

/-- `word_count = len(post_text.split())`. -/
def word_count (title body : String) : Nat := countWords (lowerCat title body)

/-- `religious_word_count = sum(1 for word in religious_keywords if word in post_text)`,
Python `in` being substring containment. -/
def religious_word_count (title body : String) : Nat :=
  (religious_keywords.filter (fun kw => decide (kw.data <:+: lowerCat title body))).length

/-- The guard `religious_word_count > 0 and (religious_word_count / word_count) > 0.4`
of `process_post` (threshold 0.4 = 2/5). -/
def religious_filter (title body : String) : Bool :=
  decide (0 < religious_word_count title body) &&
    decide ((2 : ℚ) / 5 <
      (religious_word_count title body : ℚ) / (word_count title body : ℚ))

/-- The fixed deflection text returned when the filter fires. -/
def deflection_text : String :=
  "That\x27s between you and your faith, mate. Not my place to intervene."

/-- The `discriminatory_terms` set from `process_post`. -/
def discriminatory_terms : List String :=
  ["religious discrimination", "discrimination"]

/-- `any(term in response_lower for term in discriminatory_terms)`. -/
def contains_discriminatory (text : String) : Bool :=
  discriminatory_terms.any (fun term => decide (term.data <:+: text.data.map Char.toLower))

/-- The prompt built by `process_post`. -/
def post_prompt (post : RedditPost) : String :=
  "As Thomas Shelby, provide a response to this Reddit post that demonstrates " ++
  "your commanding presence and unbreakable logic, and demolishes this post and " ++
  "antagonizes the poster. Remember to avoid any form of religious discrimination.\n\n" ++
  "Title: " ++ post.title ++ "\n" ++
  "Content: " ++ post.body ++ "\n\n" ++
  "Your response (maintain your character\x27s tone and wisdom, and demeanour):"

/-- Result of one `process_post` call: the returned value, the database
state on return, and whether the generation service was invoked. -/
structure PPResult where
  result : Option String
  db : DBState
  llmCalled : Bool
deriving DecidableEq

/-- `PostHandler.process_post`.  `llmAvailable` models `self.llm_handler`
being non-`None`; `llm` is the generation oracle (`none` = exception or
`None` response, which the outer `except`/final `return None` turn into
`None`); `now` is `datetime.now()` used by `update_post_response`.
The `if response and response.text` truthiness check is `¬ text.isEmpty`. -/
def process_post (llmAvailable : Bool) (llm : String → Option String) (now : ℚ)
    (db : DBState) (post : RedditPost) : PPResult :=
  if has_commented_on_post false db post.id then ⟨none, db, false⟩
  else if !llmAvailable then ⟨none, db, false⟩
  else if religious_filter post.title post.body then ⟨some deflection_text, db, false⟩
  else
    match llm (post_prompt post) with
    | none => ⟨none, db, true⟩
    | some t =>
      if t.isEmpty then ⟨none, db, true⟩
      else if contains_discriminatory t then ⟨none, db, true⟩
      else ⟨some t, (update_post_response false db post.id t now).1, true⟩

/-- The prompt built by `PostHandler.process_reply`. -/
def reply_prompt (reply_text : String) (depth : Nat) : String :=
  "This is reply #" ++ toString depth ++ " in the conversation. " ++
  "Please respond to this comment: " ++ reply_text

/-- `PostHandler.process_reply`: builds the prompt, calls the generation
oracle and returns `response.text if response else None` — no content
check of any kind is applied to the generated text. -/
def process_reply (llm : String → Option String) (reply_text : String) (depth : Nat) :
    Option String :=
  llm (reply_prompt reply_text depth)

/-! ## Rate-limited dispatcher (`src/reddit_api.py`) -/

/-- `self.comment_delay = 120` (seconds) in `RedditAPI.__init__`. -/
def comment_delay : ℚ := 120

/-- One call to `RedditAPI.post_comment` / `post_reply`:
`now` is `time.time()` at entry, `dur ≥ 0` the time consumed by the
external post call (plus any sleep overshoot), `ok` whether the external
call succeeded (the `except` arm returns `None` otherwise). -/
structure DispatchCall where
  now : ℚ
  dur : ℚ
  ok : Bool
deriving DecidableEq

/-- Time at which the external post call is issued:
`time_since_last = now - last_comment_time`; if it is below
`comment_delay` the caller sleeps `comment_delay - time_since_last`
before posting. -/
def dispatch_issue_time (last : ℚ) (c : DispatchCall) : ℚ :=
  if c.now - last < comment_delay then c.now + (comment_delay - (c.now - last))
  else c.now

/-- One dispatcher step: on success `last_comment_time` becomes the
completion time of the external call, which is also the delivery
timestamp; on failure the state is unchanged and no id is returned. -/
def dispatch_step (last : ℚ) (c : DispatchCall) : ℚ × Option ℚ :=
  let finish := dispatch_issue_time last c + c.dur
  if c.ok then (finish, some finish) else (last, none)

/-- Timestamps of the successful deliveries of a serialized sequence of
dispatch calls, threading `last_comment_time`. -/
def run_dispatch (last : ℚ) : List DispatchCall → List ℚ
  | [] => []
  | c :: cs =>
    match (dispatch_step last c).2 with
    | some t => t :: run_dispatch (dispatch_step last c).1 cs
    | none => run_dispatch (dispatch_step last c).1 cs

/-- The calls are serialized through the dispatcher: each call starts no
earlier than the stored `last_comment_time` (the clock is monotone and the
previous call has completed), and call durations are nonnegative. -/
def serialized_from (last : ℚ) : List DispatchCall → Bool
  | [] => true
  | c :: cs =>
    decide (last ≤ c.now) && decide (0 ≤ c.dur) &&
      serialized_from (dispatch_step last c).1 cs

/-! ## Comment dispatch loop (`RedditBot.comment_processor`, `src/bot.py`) -/

/-- The fields of `RedditBot` that `comment_processor` can touch. -/
structure BotState where
  db : DBState
  has_previous_comments : Bool
deriving DecidableEq

/-- Body of `RedditBot.comment_processor` for one dequeued
`(post, response)` pair, given the result of
`await self.reddit_api.post_comment(post.id, response)`: on success it
sets `has_previous_comments` and logs; it performs no database write
(in particular `save_comment` is not called anywhere in the repository). -/
def comment_processor_step (st : BotState) (post_id response : String)
    (post_comment_result : Option String) : BotState :=
  match post_comment_result with
  | some _ => { st with has_previous_comments := true }
  | none => st

/-! ## Reply scanning (`RedditBot.scan_comment_replies`) -/

/-- `self.max_conversation_depth = 5` in `RedditBot.__init__`. -/
def max_conversation_depth : Nat := 5

/-- A reply fetched by `get_comment_replies`. -/
structure IncomingReply where
  id : String
  author : String
  body : String
deriving DecidableEq, Repr

/-- An entry put on `self.reply_queue`. -/
structure QueuedReply where
  parent_comment_id : String
  reply_id : String
  reply_text : String
  author : String
  depth : Nat
deriving DecidableEq, Repr

/-- Inner loop of `RedditBot.scan_comment_replies` for one bot comment
`commentId`: skip own replies and already-processed replies; compute
`depth = get_conversation_depth(comment.id) + 1`; skip when
`depth > max_conversation_depth`; otherwise queue the reply. -/
def scan_comment_replies (db : DBState) (username commentId : String)
    (replies : List IncomingReply) : List QueuedReply :=
  replies.filterMap fun r =>
    if r.author == username || is_reply_processed false db r.id then none
    else if max_conversation_depth < get_conversation_depth false db commentId + 1 then none
    else some ⟨commentId, r.id, r.body, r.author, get_conversation_depth false db commentId + 1⟩

/-- An item is skipped by the scanner iff this holds: it is in the
in-memory cache or in the durable `posts` table ("seen"). -/
def seen_by_scanner (st : HandlerState) (id : String) : Bool :=
  st.post_cache.contains id || check_if_post_exists false st.db id

/-! ## Helper lemmas -/

theorem countWordsAux_pos {l : List Char} (h : ∃ c ∈ l, c.isWhitespace = false) :
    1 ≤ countWordsAux false l := by
  induction l with
  | nil => obtain ⟨c, hc, _⟩ := h; exact absurd hc (List.not_mem_nil c)
  | cons d l ih =>
    obtain ⟨c, hc, hw⟩ := h
    by_cases hd : d.isWhitespace
    · rcases List.mem_cons.mp hc with rfl | hcl
      · exact absurd hd (by simp [hw])
      · simpa [countWordsAux, hd] using ih ⟨c, hcl, hw⟩
    · simp [countWordsAux, hd]

theorem religious_keywords_nonblank :
    religious_keywords.all (fun kw => kw.data.any (fun c => !c.isWhitespace)) = true := by
  decide

/-- Divide-by-zero safety core: a matched keyword puts a non-whitespace
character into `post_text`, so the word count is at least one. -/
theorem word_count_pos_of_match {title body : String}
    (h : 0 < religious_word_count title body) : 1 ≤ word_count title body := by
  unfold religious_word_count at h
  have hne : (religious_keywords.filter
      (fun kw => decide (kw.data <:+: lowerCat title body))) ≠ [] := by
    intro hnil
    rw [hnil] at h
    exact absurd h (by simp)
  obtain ⟨kw, hkw⟩ := List.exists_mem_of_ne_nil _ hne
  rw [List.mem_filter] at hkw
  obtain ⟨hkwmem, hkwdec⟩ := hkw
  have hinf : kw.data <:+: lowerCat title body := of_decide_eq_true hkwdec
  obtain ⟨s, u, hsu⟩ := hinf
  have hany : kw.data.any (fun c => !c.isWhitespace) = true :=
    List.all_eq_true.mp religious_keywords_nonblank kw hkwmem
  obtain ⟨c, hc, hcw⟩ := List.any_eq_true.mp hany
  have hcw' : c.isWhitespace = false := by simpa using hcw
  have hcmem : c ∈ lowerCat title body := by
    rw [← hsu]
    simp [List.mem_append, hc]
  exact countWordsAux_pos ⟨c, hcmem, hcw'⟩

/-- C9: in the content-filter ratio inside `process_post`, the division
`religious_word_count / word_count` never divides by zero: the conjunct
`religious_word_count > 0` short-circuits the guard, and whenever some
keyword matches as a substring the lowercased `title + " " + body` text
splits into at least one word. -/
theorem ratio_division_safe (title body : String) :
    (0 < religious_word_count title body → 1 ≤ word_count title body) ∧
    (religious_word_count title body = 0 → religious_filter title body = false) := by
  constructor
  · exact word_count_pos_of_match
  · intro h
    unfold religious_filter
    simp [h]

/-- Witness for `ratio_division_safe` at title `"god"`, body `"x"`. -/
theorem ratio_division_safe_witness :
    0 < religious_word_count "god" "x" ∧ 1 ≤ word_count "god" "x" :=
  ⟨by decide, (ratio_division_safe "god" "x").1 (by decide)⟩

/-- C8: with `W = word_count` and `K = religious_word_count` over title+body,
the content filter fires iff `K > 0` and `K/W > 2/5` (equivalently
`2*W < 5*K`), does not fire at the exact boundary `K/W = 2/5`, and when it
fires `process_post` returns the fixed deflection text without touching the
database or invoking the generation service. -/
theorem content_filter_characterization (title body : String) :
    (religious_filter title body = true ↔
      0 < religious_word_count title body ∧
        (2 : ℚ) / 5 <
          (religious_word_count title body : ℚ) / (word_count title body : ℚ)) ∧
    (religious_filter title body = true ↔
      0 < religious_word_count title body ∧
        2 * word_count title body < 5 * religious_word_count title body) ∧
    ((religious_word_count title body : ℚ) / (word_count title body : ℚ) = 2 / 5 →
      religious_filter title body = false) ∧
    (∀ (llm : String → Option String) (now : ℚ) (db : DBState) (post : RedditPost),
      post.title = title → post.body = body →
      has_commented_on_post false db post.id = false →
      religious_filter title body = true →
      process_post true llm now db post = ⟨some deflection_text, db, false⟩) := by
  have h1 : religious_filter title body = true ↔
      0 < religious_word_count title body ∧
        (2 : ℚ) / 5 <
          (religious_word_count title body : ℚ) / (word_count title body : ℚ) := by
    unfold religious_filter
    simp [Bool.and_eq_true, decide_eq_true_eq]
  refine ⟨h1, ?_, ?_, ?_⟩
  · constructor
    · intro hf
      obtain ⟨hk, hr⟩ := h1.mp hf
      have hw : 1 ≤ word_count title body := word_count_pos_of_match hk
      have hwq : (0 : ℚ) < (word_count title body : ℚ) := by exact_mod_cast hw
      rw [div_lt_div_iff₀ (by norm_num) hwq] at hr
      refine ⟨hk, ?_⟩
      have hq : (2 : ℚ) * (word_count title body : ℚ) <
          5 * (religious_word_count title body : ℚ) := by linarith
      exact_mod_cast hq
    · rintro ⟨hk, hint⟩
      apply h1.mpr
      refine ⟨hk, ?_⟩
      have hw : 1 ≤ word_count title body := word_count_pos_of_match hk
      have hwq : (0 : ℚ) < (word_count title body : ℚ) := by exact_mod_cast hw
      rw [div_lt_div_iff₀ (by norm_num) hwq]
      have hq : (2 : ℚ) * (word_count title body : ℚ) <
          5 * (religious_word_count title body : ℚ) := by exact_mod_cast hint
      linarith
  · intro heq
    cases hf : religious_filter title body with
    | false => rfl
    | true =>
      exfalso
      obtain ⟨_, hr⟩ := h1.mp hf
      rw [heq] at hr
      exact lt_irrefl _ hr
  · intro llm now db post ht hb hcom hfil
    subst ht
    subst hb
    simp [process_post, hcom, hfil]

/-- Witness for `content_filter_characterization`: a post whose text is
entirely matching terms fires the filter and short-circuits generation. -/
theorem content_filter_characterization_witness :
    has_commented_on_post false emptyDB "p1" = false ∧
    (0 < religious_word_count "god gods religion worship" "" ∧
      2 * word_count "god gods religion worship" "" <
        5 * religious_word_count "god gods religion worship" "") ∧
    process_post true (fun _ => none) 0 emptyDB
      ⟨"p1", "god gods religion worship", "", 0, "alice"⟩ =
      ⟨some deflection_text, emptyDB, false⟩ :=
  ⟨by decide, by decide,
    (content_filter_characterization "god gods religion worship" "").2.2.2
      (fun _ => none) 0 emptyDB ⟨"p1", "god gods religion worship", "", 0, "alice"⟩
      rfl rfl (by decide)
      ((content_filter_characterization "god gods religion worship" "").2.1.mpr
        (by decide))⟩

/-- C3: `process_post` returns `None` without calling the generation
service when a comment record already exists for the post; returns `None`
(without crashing) whenever the LLM handler is unavailable; and whenever a
generated text is returned, the output database state is exactly the input
state with the response persisted by `update_post_response`. -/
theorem generate_guards (llm : String → Option String) (now : ℚ) (db : DBState)
    (post : RedditPost) :
    (has_commented_on_post false db post.id = true →
      process_post true llm now db post = ⟨none, db, false⟩) ∧
    (process_post false llm now db post = ⟨none, db, false⟩) ∧
    (∀ t : String, (process_post true llm now db post).llmCalled = true →
      (process_post true llm now db post).result = some t →
      (process_post true llm now db post).db =
        (update_post_response false db post.id t now).1) := by
  refine ⟨?_, ?_, ?_⟩
  · intro h
    simp [process_post, h]
  · unfold process_post
    by_cases h : has_commented_on_post false db post.id <;> simp [h]
  · intro t
    unfold process_post
    by_cases h1 : has_commented_on_post false db post.id
    · simp [h1]
    · by_cases h2 : religious_filter post.title post.body
      · simp [h1, h2]
      · cases hllm : llm (post_prompt post) with
        | none => simp [h1, h2, hllm]
        | some t' =>
          by_cases h3 : t'.isEmpty
          · simp [h1, h2, hllm, h3]
          · by_cases h4 : contains_discriminatory t'
            · simp [h1, h2, hllm, h3, h4]
            · simp only [h1, h2, hllm, h3, h4, Bool.not_true, if_false, if_true,
                Bool.false_eq_true, ite_false, ite_true]
              intro _ hres
              simp [h1, h2, hllm, h3, h4] at hres ⊢
              rw [hres]

/-- Witness for `generate_guards`: a post already commented on is skipped. -/
theorem generate_guards_witness :
    has_commented_on_post false (DBState.mk [] [⟨"p1", "c1", "older text", 0⟩] []) "p1" = true ∧
    process_post true (fun _ => some "fresh text") 0
      (DBState.mk [] [⟨"p1", "c1", "older text", 0⟩] []) ⟨"p1", "t", "b", 0, "alice"⟩ =
      ⟨none, DBState.mk [] [⟨"p1", "c1", "older text", 0⟩] [], false⟩ :=
  ⟨by decide,
    (generate_guards (fun _ => some "fresh text") 0
      (DBState.mk [] [⟨"p1", "c1", "older text", 0⟩] []) ⟨"p1", "t", "b", 0, "alice"⟩).1
      (by decide)⟩

/-- C5 fails on the code: `process_reply` applies no disallowed-marker
check; a generated reply that literally contains "discrimination" is
returned for delivery, not discarded. -/
theorem reply_no_safety_check_counterexample :
    contains_discriminatory "pure discrimination" = true ∧
    process_reply (fun _ => some "pure discrimination") "hello" 1 =
      some "pure discrimination" :=
  ⟨by decide, rfl⟩

/-- C5 amended: `process_reply` passes the generated text through
unchanged — whatever the generation oracle returns for the reply prompt is
returned verbatim (`none` only when generation yields nothing), with no
post-generation safety check. -/
theorem reply_passthrough (llm : String → Option String) (reply_text : String)
    (depth : Nat) :
    process_reply llm reply_text depth = llm (reply_prompt reply_text depth) ∧
    (∀ t : String, process_reply (fun _ => some t) reply_text depth = some t) ∧
    process_reply (fun _ => none) reply_text depth = none :=
  ⟨rfl, fun _ => rfl, rfl⟩

/-- C10: on a database error every read predicate degrades to the
never-seen answer — `check_if_post_exists` and `is_reply_processed` return
`False` and `get_conversation_depth` returns `0` — which is exactly what
each returns on a fresh empty database. -/
theorem db_error_degradation (db : DBState) (id : String) :
    check_if_post_exists true db id = false ∧
    is_reply_processed true db id = false ∧
    get_conversation_depth true db id = 0 ∧
    check_if_post_exists true db id = check_if_post_exists false emptyDB id ∧
    is_reply_processed true db id = is_reply_processed false emptyDB id ∧
    get_conversation_depth true db id = get_conversation_depth false emptyDB id :=
  ⟨rfl, rfl, rfl, rfl, rfl, rfl⟩

/-- C2 fails on the code: after a successful top-level delivery the
`comment_processor` loop body only sets `has_previous_comments` — it never
writes the `comments` table (`save_comment` has no call site), so no
PostedComment record exists and `has_commented_on_post` stays `False`. -/
theorem comment_processor_no_record :
    (comment_processor_step ⟨emptyDB, false⟩ "p1" "resp" (some "c1")).db.comments = [] ∧
    has_commented_on_post false
      (comment_processor_step ⟨emptyDB, false⟩ "p1" "resp" (some "c1")).db "p1" = false ∧
    (comment_processor_step ⟨emptyDB, false⟩ "p1" "resp" (some "c1")).has_previous_comments
      = true ∧
    (∀ (st : BotState) (pid resp : String) (r : Option String),
      (comment_processor_step st pid resp r).db = st.db) :=
  ⟨rfl, rfl, rfl, fun st pid resp r => by cases r <;> rfl⟩

/-- C6: every queued reply carries depth `depthOf(parent) + 1` and never
exceeds `max_conversation_depth`; when the computed depth exceeds the
maximum, scanning the replies queues nothing (a no-op); and `depthOf`
returns `0` for a comment id with no `comment_replies` row (root). -/
theorem reply_depth_guard (db : DBState) (username commentId : String)
    (replies : List IncomingReply) :
    (∀ q ∈ scan_comment_replies db username commentId replies,
      q.depth = get_conversation_depth false db commentId + 1 ∧
      q.depth ≤ max_conversation_depth) ∧
    (max_conversation_depth < get_conversation_depth false db commentId + 1 →
      scan_comment_replies db username commentId replies = []) ∧
    (db.comment_replies.find? (fun r => r.reply_comment_id == commentId) = none →
      get_conversation_depth false db commentId = 0) := by
  refine ⟨?_, ?_, ?_⟩
  · intro q hq
    simp only [scan_comment_replies, List.mem_filterMap] at hq
    obtain ⟨r, _, heq⟩ := hq
    by_cases h1 : (r.author == username || is_reply_processed false db r.id) = true
    · rw [if_pos h1] at heq
      exact absurd heq (by simp)
    · rw [if_neg h1] at heq
      by_cases h2 : max_conversation_depth < get_conversation_depth false db commentId + 1
      · rw [if_pos h2] at heq
        exact absurd heq (by simp)
      · rw [if_neg h2] at heq
        obtain rfl := Option.some.inj heq
        exact ⟨rfl, Nat.not_lt.mp h2⟩
  · intro h
    rw [scan_comment_replies, List.filterMap_eq_nil_iff]
    intro r _
    by_cases h1 : (r.author == username || is_reply_processed false db r.id) = true
    · rw [if_pos h1]
    · rw [if_neg h1, if_pos h]
  · intro h
    simp [get_conversation_depth, h]

/-- Witness for `reply_depth_guard`: a parent already at depth 5 with
`max_conversation_depth = 5` makes reply scanning a no-op. -/
theorem reply_depth_guard_witness :
    max_conversation_depth <
      get_conversation_depth false
        (DBState.mk [] [] [⟨"cp", "c0", "hi", "bob", 5, some "resp", true⟩]) "c0" + 1 ∧
    scan_comment_replies
      (DBState.mk [] [] [⟨"cp", "c0", "hi", "bob", 5, some "resp", true⟩])
      "botuser" "c0" [⟨"r1", "bob", "so what"⟩] = [] :=
  ⟨by decide,
    (reply_depth_guard (DBState.mk [] [] [⟨"cp", "c0", "hi", "bob", 5, some "resp", true⟩])
      "botuser" "c0" [⟨"r1", "bob", "so what"⟩]).2.1 (by decide)⟩

/-! ## Dispatcher lemmas (C1) -/

theorem dispatch_issue_time_ge (last : ℚ) (c : DispatchCall) (h : last ≤ c.now) :
    last + comment_delay ≤ dispatch_issue_time last c := by
  unfold dispatch_issue_time
  split_ifs with h1
  · linarith
  · have h2 : comment_delay ≤ c.now - last := not_lt.mp h1
    linarith

theorem run_dispatch_chain (cs : List DispatchCall) : ∀ last : ℚ,
    serialized_from last cs = true →
    List.Chain' (fun a b => a + comment_delay ≤ b) (last :: run_dispatch last cs) := by
  induction cs with
  | nil =>
    intro last _
    simp [run_dispatch]
  | cons c cs ih =>
    intro last h
    rw [serialized_from] at h
    simp only [Bool.and_eq_true, decide_eq_true_eq] at h
    obtain ⟨⟨h1, h2⟩, h3⟩ := h
    cases hok : c.ok with
    | false =>
      have hstep : dispatch_step last c = (last, none) := by
        simp [dispatch_step, hok]
      have hrun : run_dispatch last (c :: cs) = run_dispatch last cs := by
        simp [run_dispatch, hstep]
      rw [hrun]
      exact ih last (by rwa [hstep] at h3)
    | true =>
      have hstep : dispatch_step last c =
          (dispatch_issue_time last c + c.dur, some (dispatch_issue_time last c + c.dur)) := by
        simp [dispatch_step, hok]
      have hrun : run_dispatch last (c :: cs) =
          (dispatch_issue_time last c + c.dur) ::
            run_dispatch (dispatch_issue_time last c + c.dur) cs := by
        simp [run_dispatch, hstep]
      rw [hrun, List.chain'_cons]
      constructor
      · have := dispatch_issue_time_ge last c h1
        linarith
      · exact ih _ (by rwa [hstep] at h3)

/-- C1: the dispatcher, when the elapsed time since `last_comment_time` is
below `comment_delay`, issues the external call only at
`last + comment_delay`; it leaves `last_comment_time` unchanged on failure;
and along any serialized sequence of dispatch calls, successive successful
delivery timestamps are at least `comment_delay` apart. -/
theorem dispatcher_min_interval_gap (last : ℚ) (cs : List DispatchCall)
    (h : serialized_from last cs = true) :
    List.Chain' (fun a b => a + comment_delay ≤ b) (run_dispatch last cs) ∧
    (∀ c : DispatchCall, c.ok = false → dispatch_step last c = (last, none)) ∧
    (∀ c : DispatchCall, c.now - last < comment_delay →
      dispatch_issue_time last c = last + comment_delay) := by
  refine ⟨(run_dispatch_chain cs last h).tail, ?_, ?_⟩
  · intro c hc
    simp [dispatch_step, hc]
  · intro c hc
    simp only [dispatch_issue_time, if_pos hc]
    ring

/-- Witness for `dispatcher_min_interval_gap`: four serialized calls, the
third failing; the three delivery timestamps are 120 seconds apart. -/
theorem dispatcher_min_interval_gap_witness :
    serialized_from 0
      [⟨5, 1, true⟩, ⟨130, 0, true⟩, ⟨300, 0, false⟩, ⟨10000, 0, true⟩] = true ∧
    List.Chain' (fun a b => a + comment_delay ≤ b)
      (run_dispatch 0 [⟨5, 1, true⟩, ⟨130, 0, true⟩, ⟨300, 0, false⟩, ⟨10000, 0, true⟩]) := by
  have hser : serialized_from 0
      [⟨5, 1, true⟩, ⟨130, 0, true⟩, ⟨300, 0, false⟩, ⟨10000, 0, true⟩] = true := by
    norm_num [serialized_from, dispatch_step, dispatch_issue_time, comment_delay]
  exact ⟨hser, (dispatcher_min_interval_gap 0 _ hser).1⟩

/-! ## Cache and save lemmas (C4, C7) -/

theorem PostCache.contains_add_self (pc : PostCache) (id : String) :
    (pc.add id).contains id = true := by
  unfold PostCache.add PostCache.contains
  split_ifs <;> simp

theorem PostCache.max_size_add (pc : PostCache) (id : String) :
    (pc.add id).max_size = pc.max_size := by
  unfold PostCache.add
  split_ifs <;> rfl

theorem PostCache.card_add_le (pc : PostCache) (id : String) :
    (pc.add id).cache.card ≤ pc.cache.card + 1 := by
  unfold PostCache.add
  split_ifs with h
  · simp
  · simpa using Finset.card_insert_le id pc.cache

theorem PostCache.contains_add_mono (pc : PostCache) (id q : String)
    (hcard : pc.cache.card < pc.max_size) (h : pc.contains q = true) :
    (pc.add id).contains q = true := by
  unfold PostCache.add
  rw [if_neg (by omega)]
  unfold PostCache.contains at h ⊢
  simp only [decide_eq_true_eq] at h ⊢
  exact Finset.mem_insert_of_mem h

theorem check_save_self (db : DBState) (pid sr t pt a : String) (ts : ℚ)
    (lr : Option String) (now : ℚ) :
    check_if_post_exists false (save_post false db pid sr t pt a ts lr now).1 pid = true := by
  simp [save_post, check_if_post_exists]

theorem any_filter_ne (l : List PostRow) (pid q : String) (hq : q ≠ pid) :
    (l.filter (fun r => !(r.post_id == pid))).any (fun r => r.post_id == q) =
      l.any (fun r => r.post_id == q) := by
  induction l with
  | nil => rfl
  | cons r l ih =>
    by_cases hr : r.post_id = pid
    · have hrq : (r.post_id == q) = false := by
        rw [hr]
        exact beq_eq_false_iff_ne.mpr (Ne.symm hq)
      have hcond : (!(r.post_id == pid)) = false := by simp [hr]
      rw [List.filter_cons, hcond]
      simp only [Bool.false_eq_true, if_false]
      rw [ih, List.any_cons, hrq, Bool.false_or]
    · have hcond : (!(r.post_id == pid)) = true := by simp [hr]
      rw [List.filter_cons, hcond]
      simp only [if_true]
      rw [List.any_cons, List.any_cons, ih]

theorem check_save_other (fail : Bool) (db : DBState) (pid sr t pt a : String) (ts : ℚ)
    (lr : Option String) (now : ℚ) (q : String) (hq : q ≠ pid) :
    check_if_post_exists false (save_post fail db pid sr t pt a ts lr now).1 q =
      check_if_post_exists false db q := by
  cases fail with
  | true => rfl
  | false =>
    simp only [save_post, check_if_post_exists, if_false, Bool.false_eq_true, List.any_cons]
    have h1 : (pid == q) = false := by
      simp
      exact fun he => hq he.symm
    rw [h1, Bool.false_or]
    exact any_filter_ne db.posts pid q hq

theorem check_save_mono (fail : Bool) (db : DBState) (pid sr t pt a : String) (ts : ℚ)
    (lr : Option String) (now : ℚ) (q : String)
    (h : check_if_post_exists false db q = true) :
    check_if_post_exists false (save_post fail db pid sr t pt a ts lr now).1 q = true := by
  by_cases hq : q = pid
  · subst hq
    cases fail with
    | true => exact h
    | false => exact check_save_self db q sr t pt a ts lr now
  · rw [check_save_other fail db pid sr t pt a ts lr now q hq]
    exact h

theorem fetch_go_cons_new (sf : String → Bool) (sub : String) (st : HandlerState)
    (p : FetchedPost) (ps : List FetchedPost)
    (h : (!(st.post_cache.contains p.id) && !(check_if_post_exists false st.db p.id)) = true) :
    fetch_go sf sub st (p :: ps) =
      (p.toRedditPost :: (fetch_go sf sub (scan_step sf sub st p) ps).1,
        (fetch_go sf sub (scan_step sf sub st p) ps).2) := by
  simp [fetch_go, h]

theorem fetch_go_cons_seen (sf : String → Bool) (sub : String) (st : HandlerState)
    (p : FetchedPost) (ps : List FetchedPost)
    (h : (!(st.post_cache.contains p.id) && !(check_if_post_exists false st.db p.id)) = false) :
    fetch_go sf sub st (p :: ps) = fetch_go sf sub st ps := by
  simp [fetch_go, h]

theorem cond_false_iff_seen (st : HandlerState) (id : String) :
    (!(st.post_cache.contains id) && !(check_if_post_exists false st.db id)) = false ↔
      seen_by_scanner st id = true := by
  cases hc : st.post_cache.contains id <;>
    cases hd : check_if_post_exists false st.db id <;>
      simp [seen_by_scanner, hc, hd]

theorem seen_scan_step (sf : String → Bool) (sub : String) (st : HandlerState)
    (p : FetchedPost) : seen_by_scanner (scan_step sf sub st p) p.id = true := by
  unfold seen_by_scanner scan_step
  simp [PostCache.contains_add_self]

theorem seen_scan_step_mono (sf : String → Bool) (sub : String) (st : HandlerState)
    (p : FetchedPost) (q : String)
    (hcard : st.post_cache.cache.card < st.post_cache.max_size)
    (h : seen_by_scanner st q = true) :
    seen_by_scanner (scan_step sf sub st p) q = true := by
  unfold seen_by_scanner at h ⊢
  unfold scan_step
  rcases Bool.or_eq_true_iff.mp h with h1 | h2
  · simp [PostCache.contains_add_mono st.post_cache p.id q hcard h1]
  · simp only [Bool.or_eq_true]
    right
    exact check_save_mono (sf p.id) st.db p.id sub p.title p.selftext p.author
      p.created_utc none p.created_utc q h2

theorem fetch_go_mono (sf : String → Bool) (sub : String) :
    ∀ (ps : List FetchedPost) (st : HandlerState) (q : String),
      st.post_cache.cache.card + ps.length ≤ st.post_cache.max_size →
      seen_by_scanner st q = true →
      seen_by_scanner (fetch_go sf sub st ps).2 q = true := by
  intro ps
  induction ps with
  | nil =>
    intro st q _ h
    simpa [fetch_go] using h
  | cons p ps ih =>
    intro st q hcap h
    simp only [List.length_cons] at hcap
    have hcard : st.post_cache.cache.card < st.post_cache.max_size := by omega
    by_cases hnew :
        (!(st.post_cache.contains p.id) && !(check_if_post_exists false st.db p.id)) = true
    · rw [fetch_go_cons_new sf sub st p ps hnew]
      have hcap' : (scan_step sf sub st p).post_cache.cache.card + ps.length ≤
          (scan_step sf sub st p).post_cache.max_size := by
        have h1 := PostCache.card_add_le st.post_cache p.id
        have h2 := PostCache.max_size_add st.post_cache p.id
        show (st.post_cache.add p.id).cache.card + ps.length ≤
          (st.post_cache.add p.id).max_size
        omega
      exact ih (scan_step sf sub st p) q hcap' (seen_scan_step_mono sf sub st p q hcard h)
    · have hnew' := Bool.eq_false_iff.mpr hnew
      rw [fetch_go_cons_seen sf sub st p ps hnew']
      exact ih st q (by omega) h

theorem fetch_go_all_seen (sf : String → Bool) (sub : String) :
    ∀ (ps : List FetchedPost) (st : HandlerState),
      st.post_cache.cache.card + ps.length ≤ st.post_cache.max_size →
      ∀ p' ∈ ps, seen_by_scanner (fetch_go sf sub st ps).2 p'.id = true := by
  intro ps
  induction ps with
  | nil =>
    intro st _ p' hp'
    exact absurd hp' (List.not_mem_nil p')
  | cons p ps ih =>
    intro st hcap p' hp'
    simp only [List.length_cons] at hcap
    have hcard : st.post_cache.cache.card < st.post_cache.max_size := by omega
    by_cases hnew :
        (!(st.post_cache.contains p.id) && !(check_if_post_exists false st.db p.id)) = true
    · rw [fetch_go_cons_new sf sub st p ps hnew]
      have hcap' : (scan_step sf sub st p).post_cache.cache.card + ps.length ≤
          (scan_step sf sub st p).post_cache.max_size := by
        have h1 := PostCache.card_add_le st.post_cache p.id
        have h2 := PostCache.max_size_add st.post_cache p.id
        show (st.post_cache.add p.id).cache.card + ps.length ≤
          (st.post_cache.add p.id).max_size
        omega
      rcases List.mem_cons.mp hp' with rfl | hmem
      · exact fetch_go_mono sf sub ps _ p'.id hcap' (seen_scan_step sf sub st p')
      · exact ih (scan_step sf sub st p) hcap' p' hmem
    · have hnew' := Bool.eq_false_iff.mpr hnew
      rw [fetch_go_cons_seen sf sub st p ps hnew']
      rcases List.mem_cons.mp hp' with rfl | hmem
      · exact fetch_go_mono sf sub ps st p'.id (by omega)
          ((cond_false_iff_seen st p'.id).mp hnew')
      · exact ih st (by omega) p' hmem

theorem fetch_go_none_new (sf : String → Bool) (sub : String) :
    ∀ (ps : List FetchedPost) (st : HandlerState),
      (∀ p ∈ ps, seen_by_scanner st p.id = true) →
      fetch_go sf sub st ps = ([], st) := by
  intro ps
  induction ps with
  | nil => intro st _; rfl
  | cons p ps ih =>
    intro st h
    have hseen := h p (List.mem_cons_self p ps)
    have hcond := (cond_false_iff_seen st p.id).mpr hseen
    rw [fetch_go_cons_seen sf sub st p ps hcond]
    exact ih st (fun q hq => h q (List.mem_cons_of_mem p hq))

/-- C4: the scanner classifies an item as new iff it is absent from both
the in-memory cache and the durable `posts` table; a new item is marked in
the cache and persisted durably in the returned state; and re-fetching the
same items with the cache intact (no bulk eviction triggered) yields zero
novel items. -/
theorem scanner_dedup_idempotent (sub : String) (st : HandlerState)
    (posts : List FetchedPost)
    (hcap : st.post_cache.cache.card + posts.length ≤ st.post_cache.max_size) :
    (∀ (sf : String → Bool) (p : FetchedPost),
      (fetch_new_posts false sf sub st [p]).1 =
        if !(st.post_cache.contains p.id) && !(check_if_post_exists false st.db p.id)
        then [p.toRedditPost] else []) ∧
    (∀ p : FetchedPost,
      (!(st.post_cache.contains p.id) && !(check_if_post_exists false st.db p.id)) = true →
      (fetch_new_posts false (fun _ => false) sub st [p]).2.post_cache.contains p.id = true ∧
      check_if_post_exists false
        (fetch_new_posts false (fun _ => false) sub st [p]).2.db p.id = true) ∧
    (fetch_new_posts false (fun _ => false) sub
      (fetch_new_posts false (fun _ => false) sub st posts).2 posts).1 = [] := by
  refine ⟨?_, ?_, ?_⟩
  · intro sf p
    by_cases hnew :
        (!(st.post_cache.contains p.id) && !(check_if_post_exists false st.db p.id)) = true
    · show (fetch_go sf sub st [p]).1 = _
      rw [fetch_go_cons_new sf sub st p [] hnew, hnew]
      simp [fetch_go]
    · have hnew' := Bool.eq_false_iff.mpr hnew
      show (fetch_go sf sub st [p]).1 = _
      rw [fetch_go_cons_seen sf sub st p [] hnew', hnew']
      simp [fetch_go]
  · intro p hnew
    constructor
    · show (fetch_go (fun _ => false) sub st [p]).2.post_cache.contains p.id = true
      rw [fetch_go_cons_new (fun _ => false) sub st p [] hnew]
      exact PostCache.contains_add_self st.post_cache p.id
    · show check_if_post_exists false (fetch_go (fun _ => false) sub st [p]).2.db p.id = true
      rw [fetch_go_cons_new (fun _ => false) sub st p [] hnew]
      exact check_save_self st.db p.id sub p.title p.selftext p.author
        p.created_utc none p.created_utc
  · show (fetch_go (fun _ => false) sub (fetch_go (fun _ => false) sub st posts).2 posts).1 = []
    rw [fetch_go_none_new (fun _ => false) sub posts _
      (fetch_go_all_seen (fun _ => false) sub posts st hcap)]

/-- Witness for `scanner_dedup_idempotent`: two fresh items fetched twice
from an empty state produce nothing novel on the second fetch. -/
theorem scanner_dedup_idempotent_witness :
    (⟨⟨∅, 1000⟩, emptyDB⟩ : HandlerState).post_cache.cache.card +
      ([⟨"a", "t1", "b1", "u1", 0⟩, ⟨"b", "t2", "b2", "u2", 0⟩] : List FetchedPost).length ≤
      (⟨⟨∅, 1000⟩, emptyDB⟩ : HandlerState).post_cache.max_size ∧
    (fetch_new_posts false (fun _ => false) "monotheism"
      (fetch_new_posts false (fun _ => false) "monotheism" ⟨⟨∅, 1000⟩, emptyDB⟩
        [⟨"a", "t1", "b1", "u1", 0⟩, ⟨"b", "t2", "b2", "u2", 0⟩]).2
      [⟨"a", "t1", "b1", "u1", 0⟩, ⟨"b", "t2", "b2", "u2", 0⟩]).1 = [] :=
  ⟨by decide, (scanner_dedup_idempotent "monotheism" ⟨⟨∅, 1000⟩, emptyDB⟩
      [⟨"a", "t1", "b1", "u1", 0⟩, ⟨"b", "t2", "b2", "u2", 0⟩] (by decide)).2.2⟩

theorem fetch_go_oracle_indep (sub : String) (sf₁ sf₂ : String → Bool) :
    ∀ (ps : List FetchedPost) (st₁ st₂ : HandlerState),
      st₁.post_cache = st₂.post_cache →
      (∀ p ∈ ps, check_if_post_exists false st₁.db p.id =
        check_if_post_exists false st₂.db p.id) →
      (ps.map (fun p => p.id)).Nodup →
      (fetch_go sf₁ sub st₁ ps).1 = (fetch_go sf₂ sub st₂ ps).1 := by
  intro ps
  induction ps with
  | nil =>
    intro st₁ st₂ _ _ _
    rfl
  | cons p ps ih =>
    intro st₁ st₂ hc hdb hnd
    have hdbp := hdb p (List.mem_cons_self p ps)
    have hcond :
        (!(st₁.post_cache.contains p.id) && !(check_if_post_exists false st₁.db p.id)) =
        (!(st₂.post_cache.contains p.id) && !(check_if_post_exists false st₂.db p.id)) := by
      rw [hc, hdbp]
    rw [List.map_cons, List.nodup_cons] at hnd
    obtain ⟨hpid, hnd'⟩ := hnd
    by_cases hnew :
        (!(st₂.post_cache.contains p.id) && !(check_if_post_exists false st₂.db p.id)) = true
    · rw [fetch_go_cons_new sf₁ sub st₁ p ps (by rw [hcond]; exact hnew),
        fetch_go_cons_new sf₂ sub st₂ p ps hnew]
      have hc' : (scan_step sf₁ sub st₁ p).post_cache = (scan_step sf₂ sub st₂ p).post_cache := by
        show st₁.post_cache.add p.id = st₂.post_cache.add p.id
        rw [hc]
      have hdb' : ∀ q ∈ ps, check_if_post_exists false (scan_step sf₁ sub st₁ p).db q.id =
          check_if_post_exists false (scan_step sf₂ sub st₂ p).db q.id := by
        intro q hq
        have hqid : q.id ≠ p.id := fun he => hpid (he ▸ List.mem_map_of_mem _ hq)
        show check_if_post_exists false
            (save_post (sf₁ p.id) st₁.db p.id sub p.title p.selftext p.author
              p.created_utc none p.created_utc).1 q.id =
          check_if_post_exists false
            (save_post (sf₂ p.id) st₂.db p.id sub p.title p.selftext p.author
              p.created_utc none p.created_utc).1 q.id
        rw [check_save_other (sf₁ p.id) st₁.db p.id sub p.title p.selftext p.author
            p.created_utc none p.created_utc q.id hqid,
          check_save_other (sf₂ p.id) st₂.db p.id sub p.title p.selftext p.author
            p.created_utc none p.created_utc q.id hqid]
        exact hdb q (List.mem_cons_of_mem p hq)
      simpa using ih (scan_step sf₁ sub st₁ p) (scan_step sf₂ sub st₂ p) hc' hdb' hnd'
    · have hnew₂ := Bool.eq_false_iff.mpr hnew
      have hnew₁ : (!(st₁.post_cache.contains p.id) &&
          !(check_if_post_exists false st₁.db p.id)) = false := by
        rw [hcond]; exact hnew₂
      rw [fetch_go_cons_seen sf₁ sub st₁ p ps hnew₁,
        fetch_go_cons_seen sf₂ sub st₂ p ps hnew₂]
      exact ih st₁ st₂ hc (fun q hq => hdb q (List.mem_cons_of_mem p hq)) hnd'

/-- C7: a feed failure makes the scan return the empty list with the state
untouched (it never throws); a failing durable write returns the failure
indicator `false` leaving the table unchanged; and for distinct item ids
the list of items returned by a scan is independent of which durable
writes fail — one failed write never stops the scan from finishing with
the remaining items. -/
theorem scanner_error_containment (sf : String → Bool) (sub : String)
    (st : HandlerState) (posts : List FetchedPost)
    (hnd : (posts.map (fun p => p.id)).Nodup) :
    fetch_new_posts true sf sub st posts = ([], st) ∧
    (∀ (db : DBState) (pid sr t pt a : String) (ts : ℚ) (lr : Option String) (now : ℚ),
      save_post true db pid sr t pt a ts lr now = (db, false)) ∧
    (fetch_new_posts false sf sub st posts).1 =
      (fetch_new_posts false (fun _ => false) sub st posts).1 := by
  refine ⟨rfl, fun _ _ _ _ _ _ _ _ _ => rfl, ?_⟩
  show (fetch_go sf sub st posts).1 = (fetch_go (fun _ => false) sub st posts).1
  exact fetch_go_oracle_indep sub sf (fun _ => false) posts st st rfl (fun _ _ => rfl) hnd

/-- Witness for `scanner_error_containment`: with every durable write
failing, a scan over two fresh items still returns both items. -/
theorem scanner_error_containment_witness :
    (([⟨"a", "t1", "b1", "u1", 0⟩, ⟨"b", "t2", "b2", "u2", 0⟩] :
        List FetchedPost).map (fun p => p.id)).Nodup ∧
    (fetch_new_posts false (fun _ => true) "monotheism" ⟨⟨∅, 1000⟩, emptyDB⟩
      [⟨"a", "t1", "b1", "u1", 0⟩, ⟨"b", "t2", "b2", "u2", 0⟩]).1 =
    (fetch_new_posts false (fun _ => false) "monotheism" ⟨⟨∅, 1000⟩, emptyDB⟩
      [⟨"a", "t1", "b1", "u1", 0⟩, ⟨"b", "t2", "b2", "u2", 0⟩]).1 :=
  ⟨by decide, (scanner_error_containment (fun _ => true) "monotheism" ⟨⟨∅, 1000⟩, emptyDB⟩
      [⟨"a", "t1", "b1", "u1", 0⟩, ⟨"b", "t2", "b2", "u2", 0⟩] (by decide)).2.2⟩

end ChadRefuter
